import Mathlib

/-!
Shallow embedding of `src/src/improvserial.cpp` (the NightDriverStrip
ImprovSerial responder): the Improv-Serial frame codec, the RPC command
handler and the provisioning state machine, together with the externally
visible side effects (serial writes, wireless calls, credential-store
writes) recorded as an event trace.

Machine bytes are modelled as `Nat` values reduced modulo 256 where the
source stores them in `uint8_t`.  Serial input is a list of bytes; the
wireless subsystem is a small record threaded through the service loop.
The two pieces of the `improv` helper library that the repository uses but
does not carry in `src/` (`improv::parse_improv_data` and
`improv::build_rpc_response`) are modelled from the specification, as
marked on their doc comments.
-/

set_option maxRecDepth 100000

/-- Provisioning states (`improv::State`); wire bytes 0x02..0x04. -/
inductive ImprovState
  | authorized
  | provisioning
  | provisioned
deriving DecidableEq, Repr

/-- Wireless modes as seen through `WiFi.getMode()`. -/
inductive WifiMode
  | off
  | sta
  | ap
  | dual
deriving DecidableEq, Repr

/-- The observable status of the wireless subsystem that the core consults
(`WiFi.getMode()` / `WiFi.isConnected()`). -/
structure Wifi where
  mode : WifiMode
  connected : Bool
deriving DecidableEq, Repr

/-- A decoded RPC command (`improv::ImprovCommand`): the command id byte and
the two credential strings, kept as byte lists. -/
structure ImprovCommand where
  command : Nat
  ssid : List Nat
  password : List Nat
deriving DecidableEq, Repr

/-- The mutable state of the responder: the `ImprovSerial` fields, the
`WiFi_ssid` / `WiFi_password` globals, and the wireless status it reads.
`localIP` is the environment-provided local address used to build URLs. -/
structure Core where
  state_ : ImprovState
  firmware_name_ : List Nat
  firmware_version_ : List Nat
  hardware_variant_ : List Nat
  device_name_ : List Nat
  command_command : Nat
  command_ssid : List Nat
  command_password : List Nat
  wifi_ssid : List Nat
  wifi_password : List Nat
  rx_buffer_ : List Nat
  last_read_byte_ : Nat
  wifi : Wifi
  localIP : List Nat
deriving DecidableEq, Repr

/-- Externally visible side effects in program order: bytes written to the
serial port, provisioning-state changes, credential-store writes
(`WriteWiFiConfig`), and calls into the wireless subsystem. -/
inductive Event
  | frameOut (bytes : List Nat)
  | stateChange (old new : ImprovState)
  | storeWrite (ssid password : List Nat)
  | wifiDisconnect
  | wifiSetMode (m : WifiMode)
  | wifiAssociate (ssid password : List Nat)
deriving DecidableEq, Repr

/-- Wire byte of a provisioning state (spec "State byte values"). -/
def stateByte : ImprovState → Nat
  | .authorized => 2
  | .provisioning => 3
  | .provisioned => 4

/-- `ImprovSerial::write_data_`: appends the trailing `'\n'` (0x0A) and hands
the bytes to the serial port; the result is the full emitted byte sequence. -/
def write_data_ (data : List Nat) : List Nat :=
  data ++ [10]

/-- The 11-byte body built by `ImprovSerial::set_state_`: magic, version,
type `TYPE_CURRENT_STATE` (1), length 1, the state byte, then the checksum
over all preceding bytes stuffed into index 10 (which held 0 while the
checksum was summed, exactly as in the source). -/
def set_state_data (st : ImprovState) : List Nat :=
  let d : List Nat := [73, 77, 80, 82, 79, 86, 1, 1, 1, stateByte st, 0]
  d.set 10 (d.sum % 256)

/-- `ImprovSerial::set_state_`: stores the new state and emits one
`current_state` frame carrying it.  The `stateChange` event records the
transition for reasoning about the trace. -/
def set_state_ (s : Core) (st : ImprovState) : Core × List Event :=
  ({ s with state_ := st },
   [.stateChange s.state_ st, .frameOut (write_data_ (set_state_data st))])

/-- The 11-byte body built by `ImprovSerial::set_error_`: type
`TYPE_ERROR_STATE` (2), length 1, the error byte, checksum at index 10. -/
def set_error_data (err : Nat) : List Nat :=
  let d : List Nat := [73, 77, 80, 82, 79, 86, 1, 2, 1, err, 0]
  d.set 10 (d.sum % 256)

/-- `ImprovSerial::set_error_`: emits one `error_state` frame; the core's
fields are untouched. -/
def set_error_ (err : Nat) : Event :=
  .frameOut (write_data_ (set_error_data err))

/-- The frame built by `ImprovSerial::send_response_`: 9-byte header with
type `TYPE_RPC_RESPONSE` (4) and the payload size truncated to a byte, the
payload, then the checksum appended. -/
def send_response_data (response : List Nat) : List Nat :=
  let d : List Nat := [73, 77, 80, 82, 79, 86, 1, 4, response.length % 256] ++ response
  d ++ [d.sum % 256]

/-- `ImprovSerial::send_response_`: emits one `rpc_response` frame. -/
def send_response_ (response : List Nat) : Event :=
  .frameOut (write_data_ (send_response_data response))

/-- Modelled from the spec: `improv::build_rpc_response` is not under `src/`.
Per §3, an RPC response payload is "command id being answered, inner length,
then length-prefixed strings"; lengths and string bytes are stored in
`uint8_t`, hence the reductions modulo 256. -/
def build_rpc_response (command : Nat) (datum : List (List Nat)) : List Nat :=
  let body := (datum.map (fun str => (str.length % 256) :: str.map (· % 256))).flatten
  command % 256 :: ((datum.map (fun str => str.length + 1)).sum % 256) :: body

/-- `ImprovSerial::build_rpc_settings_response_`: a single-URL list
`"http://" ++ localIP` wrapped in an RPC response for `command`. -/
def build_rpc_settings_response_ (s : Core) (command : Nat) : List Nat :=
  build_rpc_response command [[104, 116, 116, 112, 58, 47, 47] ++ s.localIP]

/-- `ImprovSerial::build_version_info_`: the four identity strings wrapped in
an RPC response for `GET_DEVICE_INFO` (3). -/
def build_version_info_ (s : Core) : List Nat :=
  build_rpc_response 3 [s.firmware_name_, s.firmware_version_, s.hardware_variant_, s.device_name_]

/-- Modelled from the spec: `improv::parse_improv_data` is not under `src/`.
Per §3/§4.2 an RPC command payload is a command id byte, an inner length
byte, then the body; for `wifi_settings` (1) the body is exactly two
length-prefixed strings (ssid, password) and a malformed body (inner length
disagreeing with the field lengths, truncated strings) yields `none`, which
the caller turns into `invalid_rpc`.  For `get_current_state` (2),
`get_device_info` (3) and unrecognized ids the body is ignored and the id is
passed through (an unrecognized id then raises `unknown_rpc` downstream). -/
def parse_improv_data (data : List Nat) : Option ImprovCommand :=
  match data with
  | [] => none
  | command :: rest =>
    if command = 1 then
      match rest with
      | len :: sl :: t =>
        if sl ≤ t.length then
          match t.drop sl with
          | pl :: t2 =>
            if t2.length = pl ∧ len = 2 + sl + pl then
              some ⟨1, t.take sl, t2⟩
            else none
          | [] => none
        else none
      | _ => none
    else some ⟨command, [], []⟩

/-- `ImprovSerial::parse_improv_payload_`: dispatch on the decoded command.
`wifi_settings` stores the credentials in the globals, persists them
(`WriteWiFiConfig`), enters `provisioning`, disconnects, switches to
station mode, starts association and retains the command; the two query
commands answer without touching the state beyond re-asserting it. -/
def parse_improv_payload_ (s : Core) (c : ImprovCommand) : Bool × Core × List Event :=
  if c.command = 1 then
    let s1 := { s with wifi_ssid := c.ssid, wifi_password := c.password }
    let p := set_state_ s1 .provisioning
    let s3 := { p.1 with wifi := { mode := .sta, connected := false } }
    let s4 := { s3 with command_command := c.command, command_ssid := c.ssid,
                        command_password := c.password }
    (true, s4,
      .storeWrite c.ssid c.password :: p.2 ++
        [.wifiDisconnect, .wifiSetMode .sta, .wifiAssociate c.ssid c.password])
  else if c.command = 2 then
    let p := set_state_ s s.state_
    if p.1.state_ = .provisioned then
      (true, p.1, p.2 ++ [send_response_ (build_rpc_settings_response_ p.1 2)])
    else
      (true, p.1, p.2)
  else if c.command = 3 then
    (true, s, [send_response_ (build_version_info_ s)])
  else
    (false, s, [set_error_ 2])

/-- The `TYPE_RPC` branch of `parse_improv_serial_byte_`: decode the payload
and dispatch; a body the decoder rejects raises `invalid_rpc` and does not
invoke the state machine (spec §4.2, decoder modelled from the spec). -/
def handle_rpc (s : Core) (payload : List Nat) : Bool × Core × List Event :=
  match parse_improv_data payload with
  | none => (false, s, [set_error_ 1])
  | some c => parse_improv_payload_ s c

/-- The checksum summation of `parse_improv_serial_byte_`:
`for (uint8_t i = 0; i < at; i++) checksum += raw[i];`.  The index is an
8-bit counter while `at` is a `size_t`, so when `at ≥ 256` the index wraps
forever and the loop never exits; that divergence is modelled as `none`. -/
def checksum_loop (raw : List Nat) (at_ : Nat) : Option Nat :=
  if at_ < 256 then some ((raw.take at_).sum % 256) else none

/-- `ImprovSerial::parse_improv_serial_byte_`: append the byte at offset
`at`, then check it positionally (magic, version, type, length, payload,
checksum).  `none` models the non-terminating checksum loop. -/
def parse_improv_serial_byte_ (s : Core) (byte : Nat) : Option (Bool × Core × List Event) :=
  let b := byte % 256
  let at_ := s.rx_buffer_.length
  let s1 := { s with rx_buffer_ := s.rx_buffer_ ++ [b] }
  let raw := s1.rx_buffer_
  if at_ = 0 then some (decide (b = 73), s1, [])
  else if at_ = 1 then some (decide (b = 77), s1, [])
  else if at_ = 2 then some (decide (b = 80), s1, [])
  else if at_ = 3 then some (decide (b = 82), s1, [])
  else if at_ = 4 then some (decide (b = 79), s1, [])
  else if at_ = 5 then some (decide (b = 86), s1, [])
  else if at_ = 6 then some (decide (b = 1), s1, [])
  else if at_ = 7 then some (true, s1, [])
  else if at_ = 8 then some (true, s1, [])
  else
    let type_ := raw.getD 7 0
    let data_len := raw.getD 8 0
    if at_ < 8 + data_len then some (true, s1, [])
    else if at_ = 8 + data_len then some (true, s1, [])
    else if at_ = 8 + data_len + 1 then
      match checksum_loop raw at_ with
      | none => none
      | some ck =>
        if ck ≠ b then
          some (false, s1, [set_error_ 1])
        else if type_ = 3 then
          let q := handle_rpc s1 ((raw.drop 9).take data_len)
          some (q.1, q.2.1, set_error_ 0 :: q.2.2)
        else
          some (false, s1, [])
    else
      some (false, s1, [])

/-- The byte-draining `while (available_())` loop of `ImprovSerial::loop`:
feed each byte to the parser; on `true` refresh the timestamp, on `false`
clear the receive buffer.  `none` propagates parser divergence. -/
def drain (s : Core) (now : Nat) : List Nat → Option (Core × List Event)
  | [] => some (s, [])
  | b :: rest =>
    match parse_improv_serial_byte_ s b with
    | none => none
    | some (ok, s1, tr) =>
      let s2 := if ok then { s1 with last_read_byte_ := now }
                else { s1 with rx_buffer_ := [] }
      match drain s2 now rest with
      | none => none
      | some (s3, tr2) => some (s3, tr ++ tr2)

/-- `now - last` in `uint32_t` arithmetic (wraparound subtraction). -/
def sub32 (a b : Nat) : Nat :=
  ((a + 2 ^ 32) - b) % 2 ^ 32

/-- `WiFi.getMode() == WIFI_AP || (WiFi.getMode() == WIFI_STA && WiFi.isConnected())`. -/
def wifi_active (w : Wifi) : Bool :=
  w.mode == .ap || (w.mode == .sta && w.connected)

/-- `ImprovSerial::on_wifi_connect_timeout_`: emit
`error_state(unable_to_connect)` (3), enter `authorized` (emitting its
`current_state` frame), then disconnect the wireless. -/
def on_wifi_connect_timeout_ (s : Core) : Core × List Event :=
  let ev1 := set_error_ 3
  let p := set_state_ s .authorized
  let s2 := { p.1 with wifi := { p.1.wifi with connected := false } }
  (s2, ev1 :: p.2 ++ [.wifiDisconnect])

/-- The post-drain step of `ImprovSerial::loop`: while `provisioning`,
either complete provisioning when the wireless reports an active
association, or run the timeout transition when `timeout` is set. -/
def loop_tick (s : Core) (timeout : Bool) : Bool × Core × List Event :=
  if s.state_ = .provisioning then
    if wifi_active s.wifi then
      let p := set_state_ s .provisioned
      (true, p.1, p.2 ++ [send_response_ (build_rpc_settings_response_ p.1 1)])
    else if timeout then
      let p := on_wifi_connect_timeout_ s
      (false, p.1, p.2)
    else
      (false, s, [])
  else
    (false, s, [])

/-- `ImprovSerial::loop`: the 50 ms inter-frame reset, the byte drain, then
the provisioning tick.  `input` is the sequence of bytes the serial adapter
reports available; the result is the returned boolean, the new core and the
event trace, or `none` when the parser diverges. -/
def loop (s : Core) (timeout : Bool) (input : List Nat) (now : Nat) :
    Option (Bool × Core × List Event) :=
  let s0 := if 50 < sub32 now s.last_read_byte_ then
              { s with rx_buffer_ := [], last_read_byte_ := now }
            else s
  match drain s0 now input with
  | none => none
  | some (s1, tr1) =>
    let q := loop_tick s1 timeout
    some (q.1, q.2.1, tr1 ++ q.2.2)

/-- A well-formed emitted frame: at least two bytes, a trailing 0x0A, and
the byte before it equal to the modular-256 sum of everything preceding. -/
def wellFormedFrame (f : List Nat) : Prop :=
  2 ≤ f.length ∧ f[f.length - 1]? = some 10 ∧
    f[f.length - 2]? = some ((f.take (f.length - 2)).sum % 256)

instance (f : List Nat) : Decidable (wellFormedFrame f) := by
  unfold wellFormedFrame
  infer_instance

/-- The type byte of an emitted frame (offset 7). -/
def frameTypeOf (f : List Nat) : Nat :=
  f.getD 7 0

/-- The rank used by the claimed intra-invocation ordering:
`error_state` (2) before `current_state` (1) before `rpc_response` (4). -/
def frameRankOf (t : Nat) : Nat :=
  if t = 2 then 0 else if t = 1 then 1 else if t = 4 then 2 else 3

/-- The type bytes of the frames emitted in a trace, in order. -/
def frameTypes (tr : List Event) : List Nat :=
  tr.filterMap (fun e => match e with
    | .frameOut f => some (frameTypeOf f)
    | _ => none)

/-- The claimed ordering: every `error_state` frame precedes every
`current_state` frame, which precedes every `rpc_response` frame. -/
def framesOrdered (tr : List Event) : Prop :=
  (frameTypes tr).Pairwise (fun a b => frameRankOf a ≤ frameRankOf b)

instance (tr : List Event) : Decidable (framesOrdered tr) := by
  unfold framesOrdered
  infer_instance

/-- A quiescent core used as the starting point of concrete runs: empty
buffer, `authorized`, station mode without an association. -/
def initCore : Core :=
  { state_ := .authorized, firmware_name_ := [], firmware_version_ := [],
    hardware_variant_ := [], device_name_ := [], command_command := 0,
    command_ssid := [], command_password := [], wifi_ssid := [], wifi_password := [],
    rx_buffer_ := [], last_read_byte_ := 0, wifi := ⟨.sta, false⟩, localIP := [] }

/-- The quiescent core while `provisioning` with no active association. -/
def provCore : Core :=
  { initCore with state_ := .provisioning }

/-- The quiescent core while `provisioning` with the radio in access-point
mode (an active association in the source's sense). -/
def apCore : Core :=
  { initCore with state_ := .provisioning, wifi := ⟨.ap, false⟩ }

/-- A valid `wifi_settings` frame: ssid `[65]`, password `[66]`, payload
length 6, checksum 113. -/
def wsFrame : List Nat :=
  [73, 77, 80, 82, 79, 86, 1, 3, 6, 1, 4, 1, 65, 1, 66, 113]

/-- A valid `get_device_info` frame: payload `[3]`, length 1, checksum 229. -/
def devInfoFrame : List Nat :=
  [73, 77, 80, 82, 79, 86, 1, 3, 1, 3, 229]

/-- A frame with length byte 247: nine header bytes, 247 zero payload bytes
and a final byte at offset 256, where the checksum comparison is due. -/
def bigFrame : List Nat :=
  [73, 77, 80, 82, 79, 86, 1, 3, 247] ++ List.replicate 247 0 ++ [0]

/-- A core whose buffer holds the 10-byte prefix of a valid
`rpc`/`get_current_state` frame; the next byte is the checksum 228. -/
def rpcStatePre : Core :=
  { initCore with rx_buffer_ := [73, 77, 80, 82, 79, 86, 1, 3, 1, 2] }

/-- A core whose buffer holds the 10-byte prefix of a valid
`rpc`/`get_device_info` frame; the next byte is the checksum 229. -/
def rpcInfoPre : Core :=
  { initCore with rx_buffer_ := [73, 77, 80, 82, 79, 86, 1, 3, 1, 3] }


/-- The core after the witness invocation of the service loop from `apCore`
(provisioning, access-point mode active) with no input bytes. -/
def apLoopPost : Core :=
  match loop apCore true [] 0 with
  | some o => o.2.1
  | none => apCore

/-- The event trace of that same invocation. -/
def apLoopTrace : List Event :=
  match loop apCore true [] 0 with
  | some o => o.2.2
  | none => []


/-- The core after feeding the valid `wifi_settings` frame byte by byte from
an empty buffer. -/
def wsDrainPost : Core :=
  match drain initCore 0 wsFrame with
  | some o => o.1
  | none => initCore

/-- The event trace of that same byte feed. -/
def wsDrainTrace : List Event :=
  match drain initCore 0 wsFrame with
  | some o => o.2
  | none => []

/-! ### Helper lemmas shared across claims -/

lemma wf_state_frame (st : ImprovState) :
    wellFormedFrame (write_data_ (set_state_data st)) := by
  cases st <;> decide

lemma wf_error_frame (e : Nat) :
    wellFormedFrame (write_data_ (set_error_data e)) := by
  simp [wellFormedFrame, write_data_, set_error_data, List.set]

lemma frameType_state (st : ImprovState) :
    frameTypeOf (write_data_ (set_state_data st)) = 1 := by
  cases st <;> rfl

lemma frameType_error (e : Nat) :
    frameTypeOf (write_data_ (set_error_data e)) = 2 := rfl

lemma frameType_response (r : List Nat) :
    frameTypeOf (write_data_ (send_response_data r)) = 4 := rfl
lemma wf_frame_concat (d : List Nat) :
    wellFormedFrame (d ++ [d.sum % 256, 10]) := by
  have h1 : (d ++ [d.sum % 256, 10]).length = d.length + 2 := by simp
  refine ⟨by omega, ?_, ?_⟩
  · rw [h1, show d.length + 2 - 1 = d.length + 1 by omega,
      List.getElem?_append_right (by omega)]
    simp
  · rw [h1, show d.length + 2 - 2 = d.length by omega,
      List.getElem?_append_right (by omega), List.take_left]
    simp

lemma wf_response_frame (r : List Nat) :
    wellFormedFrame (write_data_ (send_response_data r)) := by
  have h := wf_frame_concat ([73, 77, 80, 82, 79, 86, 1, 4, r.length % 256] ++ r)
  simpa [write_data_, send_response_data] using h

/-! ### C2 — `wifi_settings`: persist before associate -/

/-- C2: decoding `wifi_settings` (command id 1) writes the new credential
pair to the store strictly before `associate` is called with the same pair,
sets the state to `provisioning`, disconnects the wireless, switches it to
station mode, and retains the command's ssid and password. -/
theorem c2_wifi_settings_persists_before_associate (s : Core) (c : ImprovCommand)
    (h : c.command = 1) :
    ∃ s' tr, parse_improv_payload_ s c = (true, s', tr) ∧
      (∃ i j : Nat, i < j ∧ tr[i]? = some (Event.storeWrite c.ssid c.password) ∧
        tr[j]? = some (Event.wifiAssociate c.ssid c.password)) ∧
      s'.state_ = .provisioning ∧ Event.wifiDisconnect ∈ tr ∧
      Event.wifiSetMode .sta ∈ tr ∧ s'.wifi.mode = .sta ∧
      s'.command_ssid = c.ssid ∧ s'.command_password = c.password := by
  obtain ⟨cc, cs, cp⟩ := c
  simp only at h
  subst h
  refine ⟨_, _, rfl, ⟨0, 5, by omega, rfl, rfl⟩, rfl, by simp, by simp, rfl, rfl, rfl⟩

theorem c2_witness :
    ∃ s' tr, parse_improv_payload_ initCore ⟨1, [65], [66]⟩ = (true, s', tr) ∧
      (∃ i j : Nat, i < j ∧ tr[i]? = some (Event.storeWrite [65] [66]) ∧
        tr[j]? = some (Event.wifiAssociate [65] [66])) ∧
      s'.state_ = .provisioning ∧ Event.wifiDisconnect ∈ tr ∧
      Event.wifiSetMode .sta ∈ tr ∧ s'.wifi.mode = .sta ∧
      s'.command_ssid = [65] ∧ s'.command_password = [66] :=
  c2_wifi_settings_persists_before_associate initCore ⟨1, [65], [66]⟩ rfl

/-! ### C8 — unknown command ids raise `unknown_rpc` and change nothing -/

/-- C8: an RPC payload whose command id byte is none of `wifi_settings` (1),
`get_current_state` (2) or `get_device_info` (3) makes the core emit exactly
one `error_state(unknown_rpc)` frame (type byte 2, error byte 2) and return
with the core — provisioning state, retained credentials, wireless status
and credential store — completely unchanged. -/
theorem c8_unknown_command_raises_unknown_rpc (s : Core) (p : List Nat) (c : Nat)
    (hhead : p.head? = some c) (h1 : c ≠ 1) (h2 : c ≠ 2) (h3 : c ≠ 3) :
    handle_rpc s p = (false, s, [set_error_ 2]) ∧
      frameTypeOf (write_data_ (set_error_data 2)) = 2 ∧
      (set_error_data 2)[9]? = some 2 := by
  cases p with
  | nil => simp at hhead
  | cons a t =>
    simp only [List.head?_cons, Option.some.injEq] at hhead
    subst hhead
    refine ⟨?_, rfl, rfl⟩
    simp [handle_rpc, parse_improv_data, h1, parse_improv_payload_, h2, h3]

theorem c8_witness :
    handle_rpc initCore [255] = (false, initCore, [set_error_ 2]) :=
  (c8_unknown_command_raises_unknown_rpc initCore [255] 255 rfl
    (by decide) (by decide) (by decide)).1

/-! ### C9 — `get_current_state` is idempotent -/

/-- C9: handling `get_current_state` (command id 2) is idempotent on the
core: iterating the handler any number of times returns the core unchanged
(in particular the provisioning state, the retained credentials and the
device identity strings are all preserved). -/
theorem c9_get_current_state_idempotent (s : Core) (c : ImprovCommand) (n : Nat)
    (h : c.command = 2) :
    (fun t : Core => (parse_improv_payload_ t c).2.1)^[n] s = s := by
  apply Function.iterate_fixed
  simp only [parse_improv_payload_, h]
  norm_num [set_state_]
  split <;> rfl

theorem c9_witness :
    (fun t : Core => (parse_improv_payload_ t ⟨2, [], []⟩).2.1)^[3] provCore = provCore :=
  c9_get_current_state_idempotent provCore ⟨2, [], []⟩ 3 rfl

/-! ### C1 — the checksum comparison at offset 9+L -/

/-- C1 (code bug): the source computes the checksum with
`for (uint8_t i = 0; i < at; i++)`; the 8-bit index wraps around, so for a
frame whose length byte is `L ≥ 247` the comparison point `at = 9 + L` is
at least 256 and the loop never terminates.  Feeding the complete 257-byte
frame with `L = 247` therefore diverges (modelled as `none`) instead of
comparing the checksum byte as the claim — and the spec's offset table —
require for every `L ≤ 255`. -/
theorem c1_checksum_comparison_diverges_for_large_L :
    drain initCore 0 bigFrame = none ∧ checksum_loop bigFrame 256 = none :=
  ⟨rfl, rfl⟩

/-! ### C6 — parser buffer bound: counterexample -/

/-- C6 (counterexample): the parser does not return false at the checksum
byte (offset 9+L) of a successfully handled RPC frame — it returns true and
the caller keeps the buffer.  After feeding the valid 16-byte
`wifi_settings` frame (L = 6, checksum at offset 15) byte by byte from an
empty buffer, the buffer still holds all 16 bytes, and the parse call for
the final byte at offset 9+L returned `true`, not `false`. -/
theorem c6_counterexample_parser_true_at_checksum :
    (drain initCore 0 wsFrame).map (fun o => o.1.rx_buffer_.length) = some 16 ∧
    (drain initCore 0 (wsFrame.take 15)).bind
        (fun o => (parse_improv_serial_byte_ o.1 113).map (fun q => q.1)) = some true :=
  ⟨rfl, rfl⟩

/-! ### C7 — intra-invocation frame ordering: counterexample -/

/-- C7 (counterexample): one service-loop invocation that processes a valid
`get_device_info` frame while `provisioning` with no association and
`timeout = true` emits `error_state(none)`, `rpc_response`,
`error_state(unable_to_connect)`, `current_state(authorized)` — an
`rpc_response` frame precedes both an `error_state` and a `current_state`
frame, so the claimed ordering fails for that invocation. -/
theorem c7_counterexample_frames_unordered :
    (loop provCore true devInfoFrame 0).map
        (fun o => (o.1, decide (framesOrdered o.2.2))) = some (false, false) :=
  rfl

/-! ### C10 — `error_state(none)` precedes every RPC handler run -/

/-- C10: whenever the byte completing a frame arrives (buffer holds the
9+L-byte prefix), the type byte is `rpc` (3), the checksum loop terminates
(9+L < 256) and the checksum byte matches the modular-256 sum of the
preceding bytes, the parser first emits the `error_state` frame carrying
error byte 0 (`ERROR_NONE`) — `set_error_ 0` heads the trace — and only
then runs the RPC command handler. -/
theorem c10_error_none_emitted_before_handler (s : Core) (b L : Nat)
    (hL : s.rx_buffer_.length = 9 + L)
    (h8 : s.rx_buffer_[8]? = some L)
    (h7 : s.rx_buffer_[7]? = some 3)
    (hterm : 9 + L < 256)
    (hck : s.rx_buffer_.sum % 256 = b % 256) :
    ∃ r s2 tr2, parse_improv_serial_byte_ s b = some (r, s2, set_error_ 0 :: tr2) ∧
      (r, s2, tr2) = handle_rpc { s with rx_buffer_ := s.rx_buffer_ ++ [b % 256] }
                       (s.rx_buffer_.drop 9) := by
  have hraw7 : (s.rx_buffer_ ++ [b % 256]).getD 7 0 = 3 := by
    rw [List.getD_append _ _ _ _ (by omega), List.getD_eq_getElem?_getD, h7]
    rfl
  have hraw8 : (s.rx_buffer_ ++ [b % 256]).getD 8 0 = L := by
    rw [List.getD_append _ _ _ _ (by omega), List.getD_eq_getElem?_getD, h8]
    rfl
  have htake : (s.rx_buffer_ ++ [b % 256]).take (9 + L) = s.rx_buffer_ :=
    List.take_left' hL
  have hdrop : (s.rx_buffer_ ++ [b % 256]).drop 9 = s.rx_buffer_.drop 9 ++ [b % 256] :=
    List.drop_append_of_le_length (by omega)
  have hdlen : (s.rx_buffer_.drop 9).length = L := by simp [hL]
  have hptake : (s.rx_buffer_.drop 9 ++ [b % 256]).take L = s.rx_buffer_.drop 9 :=
    List.take_left' hdlen
  rcases hrpc : handle_rpc { s with rx_buffer_ := s.rx_buffer_ ++ [b % 256] }
      (s.rx_buffer_.drop 9) with ⟨r, s2, tr⟩
  refine ⟨r, s2, tr, ?_, rfl⟩
  unfold parse_improv_serial_byte_ checksum_loop
  simp only [hL, hraw7, hraw8, htake, hdrop, hck]
  have d0 : ¬(8 + L + 1 = 0) := by omega
  have d1 : ¬(8 + L + 1 = 1) := by omega
  have d2 : ¬(8 + L + 1 = 2) := by omega
  have d3 : ¬(8 + L + 1 = 3) := by omega
  have d4 : ¬(8 + L + 1 = 4) := by omega
  have d5 : ¬(8 + L + 1 = 5) := by omega
  have d6 : ¬(8 + L + 1 = 6) := by omega
  have d7 : ¬(8 + L + 1 = 7) := by omega
  have d8 : ¬(8 + L + 1 = 8) := by omega
  have d9 : ¬(8 + L + 1 < 8 + L) := by omega
  have d10 : ¬(8 + L + 1 = 8 + L) := by omega
  have d11 : 9 + L = 8 + L + 1 := by omega
  have d12 : 8 + L + 1 < 256 := by omega
  simp only [d11, d0, d1, d2, d3, d4, d5, d6, d7, d8, d9, d10, d12, if_false, if_true,
    ite_true, ite_false, ne_eq, not_true_eq_false, hptake]
  rw [hrpc]

theorem c10_witness :
    ∃ r s2 tr2, parse_improv_serial_byte_ rpcStatePre 228 = some (r, s2, set_error_ 0 :: tr2) ∧
      (r, s2, tr2) = handle_rpc { rpcStatePre with
          rx_buffer_ := rpcStatePre.rx_buffer_ ++ [228 % 256] }
        (rpcStatePre.rx_buffer_.drop 9) :=
  c10_error_none_emitted_before_handler rpcStatePre 228 1 (by decide) (by decide)
    (by decide) (by decide) (by decide)

/-! ### Trace-shape helper lemmas -/

lemma payload_trace_cases (s : Core) (c : ImprovCommand) :
    (parse_improv_payload_ s c).2.2 =
        [.storeWrite c.ssid c.password, .stateChange s.state_ .provisioning,
         .frameOut (write_data_ (set_state_data .provisioning)),
         .wifiDisconnect, .wifiSetMode .sta, .wifiAssociate c.ssid c.password] ∨
    (∃ resp, (parse_improv_payload_ s c).2.2 =
        [.stateChange s.state_ s.state_, .frameOut (write_data_ (set_state_data s.state_)),
         .frameOut (write_data_ (send_response_data resp))]) ∨
    (parse_improv_payload_ s c).2.2 =
        [.stateChange s.state_ s.state_, .frameOut (write_data_ (set_state_data s.state_))] ∨
    (∃ resp, (parse_improv_payload_ s c).2.2 =
        [.frameOut (write_data_ (send_response_data resp))]) ∨
    (parse_improv_payload_ s c).2.2 = [set_error_ 2] := by
  by_cases hc1 : c.command = 1
  · left
    simp [parse_improv_payload_, set_state_, hc1]
  by_cases hc2 : c.command = 2
  · by_cases hp : s.state_ = .provisioned
    · right; left
      refine ⟨build_rpc_settings_response_ { s with state_ := s.state_ } 2, ?_⟩
      simp [parse_improv_payload_, set_state_, send_response_, hc1, hc2, hp]
    · right; right; left
      simp [parse_improv_payload_, set_state_, hc1, hc2, hp]
  by_cases hc3 : c.command = 3
  · right; right; right; left
    refine ⟨build_version_info_ s, ?_⟩
    simp [parse_improv_payload_, set_state_, send_response_, hc1, hc2, hc3]
  · right; right; right; right
    simp [parse_improv_payload_, hc1, hc2, hc3]

lemma payload_core_fields (s : Core) (c : ImprovCommand) :
    (parse_improv_payload_ s c).2.1.rx_buffer_ = s.rx_buffer_ ∧
    (parse_improv_payload_ s c).2.1.last_read_byte_ = s.last_read_byte_ ∧
    ((parse_improv_payload_ s c).2.1.state_ = s.state_ ∨
      (parse_improv_payload_ s c).2.1.state_ = .provisioning) ∧
    ((parse_improv_payload_ s c).2.1.wifi = s.wifi ∨
      (parse_improv_payload_ s c).2.1.wifi = ⟨.sta, false⟩) := by
  by_cases hc1 : c.command = 1
  · simp [parse_improv_payload_, set_state_, hc1]
  by_cases hc2 : c.command = 2
  · by_cases hp : s.state_ = .provisioned <;>
      simp [parse_improv_payload_, set_state_, hc1, hc2, hp]
  by_cases hc3 : c.command = 3
  · simp [parse_improv_payload_, hc1, hc2, hc3]
  · simp [parse_improv_payload_, hc1, hc2, hc3]

lemma payload_stateChange (s : Core) (c : ImprovCommand) (old neu : ImprovState)
    (h : Event.stateChange old neu ∈ (parse_improv_payload_ s c).2.2) :
    neu = .provisioning ∨ old = neu := by
  rcases payload_trace_cases s c with hA | ⟨resp, hB⟩ | hC | ⟨resp, hD⟩ | hE <;>
    [rw [hA] at h; rw [hB] at h; rw [hC] at h; rw [hD] at h; rw [hE] at h] <;>
    simp [set_error_] at h
  · exact Or.inl h.2
  · exact Or.inr (h.1.trans h.2.symm)
  · exact Or.inr (h.1.trans h.2.symm)

lemma payload_frames_wf (s : Core) (c : ImprovCommand) (f : List Nat)
    (h : Event.frameOut f ∈ (parse_improv_payload_ s c).2.2) :
    wellFormedFrame f := by
  rcases payload_trace_cases s c with hA | ⟨resp, hB⟩ | hC | ⟨resp, hD⟩ | hE <;>
    [rw [hA] at h; rw [hB] at h; rw [hC] at h; rw [hD] at h; rw [hE] at h] <;>
    simp [set_error_] at h
  · subst h; exact wf_state_frame _
  · rcases h with rfl | rfl
    · exact wf_state_frame _
    · exact wf_response_frame _
  · subst h; exact wf_state_frame _
  · subst h; exact wf_response_frame _
  · subst h; exact wf_error_frame _

lemma payload_frames_ordered (s : Core) (c : ImprovCommand) :
    framesOrdered (parse_improv_payload_ s c).2.2 := by
  rcases payload_trace_cases s c with hA | ⟨resp, hB⟩ | hC | ⟨resp, hD⟩ | hE <;>
    [rw [hA]; rw [hB]; rw [hC]; rw [hD]; rw [hE]] <;>
    simp [framesOrdered, frameTypes, frameType_state, frameType_error, frameType_response,
      frameRankOf, set_error_]

lemma handle_core_fields (s : Core) (p : List Nat) :
    (handle_rpc s p).2.1.rx_buffer_ = s.rx_buffer_ ∧
    (handle_rpc s p).2.1.last_read_byte_ = s.last_read_byte_ ∧
    ((handle_rpc s p).2.1.state_ = s.state_ ∨
      (handle_rpc s p).2.1.state_ = .provisioning) ∧
    ((handle_rpc s p).2.1.wifi = s.wifi ∨
      (handle_rpc s p).2.1.wifi = ⟨.sta, false⟩) := by
  unfold handle_rpc
  cases parse_improv_data p with
  | none => simp
  | some c => exact payload_core_fields s c

lemma handle_stateChange (s : Core) (p : List Nat) (old neu : ImprovState)
    (h : Event.stateChange old neu ∈ (handle_rpc s p).2.2) :
    neu = .provisioning ∨ old = neu := by
  unfold handle_rpc at h
  cases hd : parse_improv_data p with
  | none => rw [hd] at h; simp [set_error_] at h
  | some c => rw [hd] at h; exact payload_stateChange s c old neu h

lemma handle_frames_wf (s : Core) (p : List Nat) (f : List Nat)
    (h : Event.frameOut f ∈ (handle_rpc s p).2.2) :
    wellFormedFrame f := by
  unfold handle_rpc at h
  cases hd : parse_improv_data p with
  | none =>
    rw [hd] at h
    simp [set_error_] at h
    subst h; exact wf_error_frame _
  | some c => rw [hd] at h; exact payload_frames_wf s c f h

lemma handle_frames_ordered (s : Core) (p : List Nat) :
    framesOrdered (handle_rpc s p).2.2 := by
  unfold handle_rpc
  cases parse_improv_data p with
  | none =>
    simp [framesOrdered, frameTypes, frameType_error, set_error_]
  | some c => exact payload_frames_ordered s c

lemma parse_cases (s : Core) (b : Nat) :
    (parse_improv_serial_byte_ s b = none ∧ 256 ≤ s.rx_buffer_.length) ∨
    (∃ r0 tr0, parse_improv_serial_byte_ s b =
        some (r0, { s with rx_buffer_ := s.rx_buffer_ ++ [b % 256] }, tr0) ∧
      (tr0 = [] ∨ tr0 = [set_error_ 1]) ∧
      (r0 = true → s.rx_buffer_.length ≤ 8 + s.rx_buffer_.getD 8 0)) ∨
    (∃ p, parse_improv_serial_byte_ s b =
        some ((handle_rpc { s with rx_buffer_ := s.rx_buffer_ ++ [b % 256] } p).1,
              (handle_rpc { s with rx_buffer_ := s.rx_buffer_ ++ [b % 256] } p).2.1,
              set_error_ 0 :: (handle_rpc { s with rx_buffer_ := s.rx_buffer_ ++ [b % 256] } p).2.2) ∧
      s.rx_buffer_.length < 256) := by
  by_cases h0 : s.rx_buffer_.length = 0
  · refine Or.inr (Or.inl ⟨decide (b % 256 = 73), [], ?_, Or.inl rfl, fun _ => by omega⟩)
    unfold parse_improv_serial_byte_; dsimp only; rw [if_pos h0]
  by_cases h1 : s.rx_buffer_.length = 1
  · refine Or.inr (Or.inl ⟨decide (b % 256 = 77), [], ?_, Or.inl rfl, fun _ => by omega⟩)
    unfold parse_improv_serial_byte_; dsimp only; rw [if_neg h0, if_pos h1]
  by_cases h2 : s.rx_buffer_.length = 2
  · refine Or.inr (Or.inl ⟨decide (b % 256 = 80), [], ?_, Or.inl rfl, fun _ => by omega⟩)
    unfold parse_improv_serial_byte_; dsimp only; rw [if_neg h0, if_neg h1, if_pos h2]
  by_cases h3 : s.rx_buffer_.length = 3
  · refine Or.inr (Or.inl ⟨decide (b % 256 = 82), [], ?_, Or.inl rfl, fun _ => by omega⟩)
    unfold parse_improv_serial_byte_; dsimp only
    rw [if_neg h0, if_neg h1, if_neg h2, if_pos h3]
  by_cases h4 : s.rx_buffer_.length = 4
  · refine Or.inr (Or.inl ⟨decide (b % 256 = 79), [], ?_, Or.inl rfl, fun _ => by omega⟩)
    unfold parse_improv_serial_byte_; dsimp only
    rw [if_neg h0, if_neg h1, if_neg h2, if_neg h3, if_pos h4]
  by_cases h5 : s.rx_buffer_.length = 5
  · refine Or.inr (Or.inl ⟨decide (b % 256 = 86), [], ?_, Or.inl rfl, fun _ => by omega⟩)
    unfold parse_improv_serial_byte_; dsimp only
    rw [if_neg h0, if_neg h1, if_neg h2, if_neg h3, if_neg h4, if_pos h5]
  by_cases h6 : s.rx_buffer_.length = 6
  · refine Or.inr (Or.inl ⟨decide (b % 256 = 1), [], ?_, Or.inl rfl, fun _ => by omega⟩)
    unfold parse_improv_serial_byte_; dsimp only
    rw [if_neg h0, if_neg h1, if_neg h2, if_neg h3, if_neg h4, if_neg h5, if_pos h6]
  by_cases h7 : s.rx_buffer_.length = 7
  · refine Or.inr (Or.inl ⟨true, [], ?_, Or.inl rfl, fun _ => by omega⟩)
    unfold parse_improv_serial_byte_; dsimp only
    rw [if_neg h0, if_neg h1, if_neg h2, if_neg h3, if_neg h4, if_neg h5, if_neg h6,
      if_pos h7]
  by_cases h8 : s.rx_buffer_.length = 8
  · refine Or.inr (Or.inl ⟨true, [], ?_, Or.inl rfl, fun _ => by omega⟩)
    unfold parse_improv_serial_byte_; dsimp only
    rw [if_neg h0, if_neg h1, if_neg h2, if_neg h3, if_neg h4, if_neg h5, if_neg h6,
      if_neg h7, if_pos h8]
  have hge : 9 ≤ s.rx_buffer_.length := by omega
  have hdl : (s.rx_buffer_ ++ [b % 256]).getD 8 0 = s.rx_buffer_.getD 8 0 :=
    List.getD_append _ _ _ _ (by omega)
  have hty : (s.rx_buffer_ ++ [b % 256]).getD 7 0 = s.rx_buffer_.getD 7 0 :=
    List.getD_append _ _ _ _ (by omega)
  by_cases hlt : s.rx_buffer_.length < 8 + s.rx_buffer_.getD 8 0
  · refine Or.inr (Or.inl ⟨true, [], ?_, Or.inl rfl, fun _ => by omega⟩)
    unfold parse_improv_serial_byte_; dsimp only
    rw [if_neg h0, if_neg h1, if_neg h2, if_neg h3, if_neg h4, if_neg h5, if_neg h6,
      if_neg h7, if_neg h8, hdl, if_pos hlt]
  by_cases heq : s.rx_buffer_.length = 8 + s.rx_buffer_.getD 8 0
  · refine Or.inr (Or.inl ⟨true, [], ?_, Or.inl rfl, fun _ => by omega⟩)
    unfold parse_improv_serial_byte_; dsimp only
    rw [if_neg h0, if_neg h1, if_neg h2, if_neg h3, if_neg h4, if_neg h5, if_neg h6,
      if_neg h7, if_neg h8, hdl, if_neg hlt, if_pos heq]
  by_cases hcs : s.rx_buffer_.length = 8 + s.rx_buffer_.getD 8 0 + 1
  · by_cases h256 : s.rx_buffer_.length < 256
    · have hcl : checksum_loop (s.rx_buffer_ ++ [b % 256]) s.rx_buffer_.length =
          some (s.rx_buffer_.sum % 256) := by
        unfold checksum_loop
        rw [if_pos h256, List.take_left' rfl]
      by_cases hck : s.rx_buffer_.sum % 256 = b % 256
      · by_cases h3t : s.rx_buffer_.getD 7 0 = 3
        · refine Or.inr (Or.inr ⟨((s.rx_buffer_ ++ [b % 256]).drop 9).take
            (s.rx_buffer_.getD 8 0), ?_, h256⟩)
          unfold parse_improv_serial_byte_; dsimp only
          rw [if_neg h0, if_neg h1, if_neg h2, if_neg h3, if_neg h4, if_neg h5, if_neg h6,
            if_neg h7, if_neg h8, hdl, hty, if_neg hlt, if_neg heq, if_pos hcs, hcl]
          dsimp only
          rw [if_neg (not_not_intro hck), if_pos h3t]
        · refine Or.inr (Or.inl ⟨false, [], ?_, Or.inl rfl, by simp⟩)
          unfold parse_improv_serial_byte_; dsimp only
          rw [if_neg h0, if_neg h1, if_neg h2, if_neg h3, if_neg h4, if_neg h5, if_neg h6,
            if_neg h7, if_neg h8, hdl, hty, if_neg hlt, if_neg heq, if_pos hcs, hcl]
          dsimp only
          rw [if_neg (not_not_intro hck), if_neg h3t]
      · refine Or.inr (Or.inl ⟨false, [set_error_ 1], ?_, Or.inr rfl, by simp⟩)
        unfold parse_improv_serial_byte_; dsimp only
        rw [if_neg h0, if_neg h1, if_neg h2, if_neg h3, if_neg h4, if_neg h5, if_neg h6,
          if_neg h7, if_neg h8, hdl, if_neg hlt, if_neg heq, if_pos hcs, hcl]
        dsimp only
        rw [if_pos (fun hx => hck hx)]
    · refine Or.inl ⟨?_, by omega⟩
      have hcl : checksum_loop (s.rx_buffer_ ++ [b % 256]) s.rx_buffer_.length = none := by
        unfold checksum_loop
        rw [if_neg h256]
      unfold parse_improv_serial_byte_; dsimp only
      rw [if_neg h0, if_neg h1, if_neg h2, if_neg h3, if_neg h4, if_neg h5, if_neg h6,
        if_neg h7, if_neg h8, hdl, if_neg hlt, if_neg heq, if_pos hcs, hcl]
  · refine Or.inr (Or.inl ⟨false, [], ?_, Or.inl rfl, by simp⟩)
    unfold parse_improv_serial_byte_; dsimp only
    rw [if_neg h0, if_neg h1, if_neg h2, if_neg h3, if_neg h4, if_neg h5, if_neg h6,
      if_neg h7, if_neg h8, hdl, if_neg hlt, if_neg heq, if_neg hcs]
lemma parse_core_fields (s : Core) (b : Nat) (r : Bool) (s' : Core) (tr : List Event)
    (h : parse_improv_serial_byte_ s b = some (r, s', tr)) :
    s'.rx_buffer_ = s.rx_buffer_ ++ [b % 256] ∧
    s'.last_read_byte_ = s.last_read_byte_ ∧
    (s'.state_ = s.state_ ∨ s'.state_ = .provisioning) ∧
    (s'.wifi = s.wifi ∨ s'.wifi = ⟨.sta, false⟩) := by
  rcases parse_cases s b with ⟨hn, _⟩ | ⟨r0, tr0, he, _, _⟩ | ⟨p, he, _⟩
  · rw [hn] at h; cases h
  · rw [he] at h
    simp only [Option.some.injEq, Prod.mk.injEq] at h
    obtain ⟨-, h2, -⟩ := h
    subst h2
    exact ⟨rfl, rfl, Or.inl rfl, Or.inl rfl⟩
  · rw [he] at h
    simp only [Option.some.injEq, Prod.mk.injEq] at h
    obtain ⟨-, h2, -⟩ := h
    subst h2
    have hf := handle_core_fields { s with rx_buffer_ := s.rx_buffer_ ++ [b % 256] } p
    simpa using hf

lemma parse_stateChange (s : Core) (b : Nat) (r : Bool) (s' : Core) (tr : List Event)
    (old neu : ImprovState)
    (h : parse_improv_serial_byte_ s b = some (r, s', tr))
    (hm : Event.stateChange old neu ∈ tr) :
    neu = .provisioning ∨ old = neu := by
  rcases parse_cases s b with ⟨hn, _⟩ | ⟨r0, tr0, he, htr, _⟩ | ⟨p, he, _⟩
  · rw [hn] at h; cases h
  · rw [he] at h
    simp only [Option.some.injEq, Prod.mk.injEq] at h
    obtain ⟨-, -, h3⟩ := h
    subst h3
    rcases htr with rfl | rfl <;> simp [set_error_] at hm
  · rw [he] at h
    simp only [Option.some.injEq, Prod.mk.injEq] at h
    obtain ⟨-, -, h3⟩ := h
    subst h3
    simp only [List.mem_cons, set_error_] at hm
    rcases hm with hm | hm
    · cases hm
    · exact handle_stateChange _ p old neu hm

lemma parse_frames_wf (s : Core) (b : Nat) (r : Bool) (s' : Core) (tr : List Event)
    (f : List Nat)
    (h : parse_improv_serial_byte_ s b = some (r, s', tr))
    (hm : Event.frameOut f ∈ tr) :
    wellFormedFrame f := by
  rcases parse_cases s b with ⟨hn, _⟩ | ⟨r0, tr0, he, htr, _⟩ | ⟨p, he, _⟩
  · rw [hn] at h; cases h
  · rw [he] at h
    simp only [Option.some.injEq, Prod.mk.injEq] at h
    obtain ⟨-, -, h3⟩ := h
    subst h3
    rcases htr with rfl | rfl <;> simp [set_error_] at hm
    · subst hm; exact wf_error_frame _
  · rw [he] at h
    simp only [Option.some.injEq, Prod.mk.injEq] at h
    obtain ⟨-, -, h3⟩ := h
    subst h3
    simp only [List.mem_cons, set_error_] at hm
    rcases hm with hm | hm
    · obtain rfl : f = write_data_ (set_error_data 0) := by simpa using hm
      exact wf_error_frame _
    · exact handle_frames_wf _ p f hm
lemma drain_props (input : List Nat) : ∀ (s : Core) (now : Nat) (s' : Core) (tr : List Event),
    drain s now input = some (s', tr) →
    (s'.state_ = s.state_ ∨ s'.state_ = .provisioning) ∧
    (s'.wifi = s.wifi ∨ s'.wifi = ⟨.sta, false⟩) ∧
    (∀ old neu, Event.stateChange old neu ∈ tr → neu = .provisioning ∨ old = neu) ∧
    (∀ f, Event.frameOut f ∈ tr → wellFormedFrame f) := by
  induction input with
  | nil =>
    intro s now s' tr h
    simp only [drain, Option.some.injEq, Prod.mk.injEq] at h
    obtain ⟨h1, h2⟩ := h
    subst h1; subst h2
    exact ⟨Or.inl rfl, Or.inl rfl, by simp, by simp⟩
  | cons b rest ih =>
    intro s now s' tr h
    rw [drain] at h
    rcases hp : parse_improv_serial_byte_ s b with - | ⟨ok, s1, tr1⟩
    · rw [hp] at h; cases h
    rw [hp] at h
    dsimp only at h
    obtain ⟨hbuf, hlast, hst, hwf⟩ := parse_core_fields s b ok s1 tr1 hp
    cases ok with
    | false =>
      rw [if_neg Bool.false_ne_true] at h
      rcases hd : drain { s1 with rx_buffer_ := [] } now rest with - | ⟨s3, tr2⟩
      · rw [hd] at h; cases h
      rw [hd] at h
      simp only [Option.some.injEq, Prod.mk.injEq] at h
      obtain ⟨h1, h2⟩ := h
      subst h1; subst h2
      obtain ⟨i1, i2, i3, i4⟩ := ih { s1 with rx_buffer_ := [] } now s3 tr2 hd
      refine ⟨?_, ?_, ?_, ?_⟩
      · rcases i1 with i1 | i1
        · rw [i1]; simpa using hst
        · exact Or.inr i1
      · rcases i2 with i2 | i2
        · rw [i2]; simpa using hwf
        · exact Or.inr i2
      · intro old neu hm
        rcases List.mem_append.mp hm with hm | hm
        · exact parse_stateChange s b false s1 tr1 old neu hp hm
        · exact i3 old neu hm
      · intro f hm
        rcases List.mem_append.mp hm with hm | hm
        · exact parse_frames_wf s b false s1 tr1 f hp hm
        · exact i4 f hm
    | true =>
      rw [if_pos rfl] at h
      rcases hd : drain { s1 with last_read_byte_ := now } now rest with - | ⟨s3, tr2⟩
      · rw [hd] at h; cases h
      rw [hd] at h
      simp only [Option.some.injEq, Prod.mk.injEq] at h
      obtain ⟨h1, h2⟩ := h
      subst h1; subst h2
      obtain ⟨i1, i2, i3, i4⟩ := ih { s1 with last_read_byte_ := now } now s3 tr2 hd
      refine ⟨?_, ?_, ?_, ?_⟩
      · rcases i1 with i1 | i1
        · rw [i1]; simpa using hst
        · exact Or.inr i1
      · rcases i2 with i2 | i2
        · rw [i2]; simpa using hwf
        · exact Or.inr i2
      · intro old neu hm
        rcases List.mem_append.mp hm with hm | hm
        · exact parse_stateChange s b true s1 tr1 old neu hp hm
        · exact i3 old neu hm
      · intro f hm
        rcases List.mem_append.mp hm with hm | hm
        · exact parse_frames_wf s b true s1 tr1 f hp hm
        · exact i4 f hm
lemma loop_tick_prov (s : Core) (timeout : Bool)
    (hst : s.state_ = .provisioning) (hw : wifi_active s.wifi = true) :
    loop_tick s timeout = (true, { s with state_ := .provisioned },
      [.stateChange s.state_ .provisioned,
       .frameOut (write_data_ (set_state_data .provisioned)),
       .frameOut (write_data_ (send_response_data
         (build_rpc_settings_response_ { s with state_ := .provisioned } 1)))]) := by
  simp [loop_tick, set_state_, send_response_, hst, hw]

lemma loop_tick_timeout (s : Core)
    (hst : s.state_ = .provisioning) (hw : wifi_active s.wifi = false) :
    loop_tick s true = (false,
      { s with state_ := .authorized, wifi := { s.wifi with connected := false } },
      [set_error_ 3, .stateChange s.state_ .authorized,
       .frameOut (write_data_ (set_state_data .authorized)), .wifiDisconnect]) := by
  simp [loop_tick, on_wifi_connect_timeout_, set_state_, hst, hw]

lemma loop_tick_idle (s : Core)
    (hst : s.state_ = .provisioning) (hw : wifi_active s.wifi = false) :
    loop_tick s false = (false, s, []) := by
  simp [loop_tick, hst, hw]

lemma loop_tick_other (s : Core) (timeout : Bool) (hst : ¬s.state_ = .provisioning) :
    loop_tick s timeout = (false, s, []) := by
  simp [loop_tick, hst]
/-! ### C3 — provisioning timeout transition -/

/-- C3: a service-loop call with `timeout = true` while the state is
`provisioning` and the wireless reports no active association (not
access-point mode and not station-connected) ends with the core emitting an
`error_state(unable_to_connect)` (3) frame, then a `current_state(authorized)`
frame, then disconnecting the wireless; the state becomes `authorized` and
the call returns false. -/
theorem c3_timeout_transition_to_authorized (s : Core) (input : List Nat) (now : Nat) (r : Bool) (s' : Core)
    (tr : List Event)
    (hstate : s.state_ = .provisioning)
    (hwifi : wifi_active s.wifi = false)
    (h : loop s true input now = some (r, s', tr)) :
    r = false ∧ s'.state_ = .authorized ∧ s'.wifi.connected = false ∧
    ∃ tr0, tr = tr0 ++ [set_error_ 3, Event.stateChange .provisioning .authorized,
      Event.frameOut (write_data_ (set_state_data .authorized)), Event.wifiDisconnect] := by
  unfold loop at h
  dsimp only at h
  by_cases hclear : 50 < sub32 now s.last_read_byte_ <;>
    [rw [if_pos hclear] at h; rw [if_neg hclear] at h]
  case pos =>
    rcases hd : drain { s with rx_buffer_ := [], last_read_byte_ := now } now input
        with - | ⟨s1, tr1⟩
    · rw [hd] at h; cases h
    rw [hd] at h
    dsimp only at h
    obtain ⟨d1, d2, -, -⟩ := drain_props input _ now s1 tr1 hd
    have hst1 : s1.state_ = .provisioning := by
      rcases d1 with d1 | d1
      · rw [d1]; exact hstate
      · exact d1
    have hw1 : wifi_active s1.wifi = false := by
      rcases d2 with d2 | d2
      · rw [d2]; exact hwifi
      · rw [d2]; rfl
    rw [loop_tick_timeout s1 hst1 hw1] at h
    dsimp only at h
    simp only [Option.some.injEq, Prod.mk.injEq] at h
    obtain ⟨hr, hs, ht⟩ := h
    subst hr; subst hs; subst ht
    refine ⟨rfl, rfl, rfl, ⟨tr1, by rw [hst1]⟩⟩
  case neg =>
    rcases hd : drain s now input with - | ⟨s1, tr1⟩
    · rw [hd] at h; cases h
    rw [hd] at h
    dsimp only at h
    obtain ⟨d1, d2, -, -⟩ := drain_props input s now s1 tr1 hd
    have hst1 : s1.state_ = .provisioning := by
      rcases d1 with d1 | d1
      · rw [d1]; exact hstate
      · exact d1
    have hw1 : wifi_active s1.wifi = false := by
      rcases d2 with d2 | d2
      · rw [d2]; exact hwifi
      · rw [d2]; rfl
    rw [loop_tick_timeout s1 hst1 hw1] at h
    dsimp only at h
    simp only [Option.some.injEq, Prod.mk.injEq] at h
    obtain ⟨hr, hs, ht⟩ := h
    subst hr; subst hs; subst ht
    refine ⟨rfl, rfl, rfl, ⟨tr1, by rw [hst1]⟩⟩

theorem c3_witness :
    ∃ r s' tr, loop provCore true [] 0 = some (r, s', tr) ∧
      r = false ∧ s'.state_ = .authorized ∧ s'.wifi.connected = false ∧
      ∃ tr0, tr = tr0 ++ [set_error_ 3, Event.stateChange .provisioning .authorized,
        Event.frameOut (write_data_ (set_state_data .authorized)), Event.wifiDisconnect] := by
  refine ⟨false, _, _, rfl, ?_⟩
  exact c3_timeout_transition_to_authorized provCore [] 0 false _ _ rfl rfl rfl

/-! ### C4 — loop return value -/

/-- C4: a service-loop invocation returns true exactly when the state
transitioned from `provisioning` to `provisioned` during that invocation
(recorded as a `stateChange provisioning provisioned` event in its trace);
every other invocation returns false. -/
lemma drain_no_prov_to_provisioned (input : List Nat) (s : Core) (now : Nat) (s' : Core)
    (tr : List Event) (hd : drain s now input = some (s', tr)) :
    Event.stateChange .provisioning .provisioned ∉ tr := by
  intro hm
  obtain ⟨-, -, h3, -⟩ := drain_props input s now s' tr hd
  rcases h3 _ _ hm with h | h <;> cases h

theorem c4_loop_true_iff_provisioned_transition (s : Core) (timeout : Bool) (input : List Nat) (now : Nat) (r : Bool)
    (s' : Core) (tr : List Event)
    (h : loop s timeout input now = some (r, s', tr)) :
    r = true ↔ Event.stateChange .provisioning .provisioned ∈ tr := by
  unfold loop at h
  dsimp only at h
  rcases hd : drain (if 50 < sub32 now s.last_read_byte_ then
      { s with rx_buffer_ := [], last_read_byte_ := now } else s) now input
      with - | ⟨s1, tr1⟩ <;> rw [hd] at h
  · cases h
  dsimp only at h
  have hnp := drain_no_prov_to_provisioned input _ now s1 tr1 hd
  by_cases hst : s1.state_ = .provisioning
  · by_cases hw : wifi_active s1.wifi = true
    · rw [loop_tick_prov s1 timeout hst hw] at h
      dsimp only at h
      simp only [Option.some.injEq, Prod.mk.injEq] at h
      obtain ⟨hr, -, ht⟩ := h
      subst hr; subst ht
      simp only [List.mem_append, List.mem_cons]
      constructor
      · intro hx
        exact Or.inr (Or.inl (by rw [hst]))
      · intro hx
        trivial
    · rw [Bool.not_eq_true] at hw
      cases timeout with
      | true =>
        rw [loop_tick_timeout s1 hst hw] at h
        dsimp only at h
        simp only [Option.some.injEq, Prod.mk.injEq] at h
        obtain ⟨hr, -, ht⟩ := h
        subst hr; subst ht
        constructor
        · intro hcon; cases hcon
        · intro hm
          rcases List.mem_append.mp hm with hm | hm
          · exact absurd hm hnp
          · simp [set_error_] at hm
      | false =>
        rw [loop_tick_idle s1 hst hw] at h
        dsimp only at h
        simp only [Option.some.injEq, Prod.mk.injEq] at h
        obtain ⟨hr, -, ht⟩ := h
        subst hr; subst ht
        constructor
        · intro hcon; cases hcon
        · intro hm
          exact absurd (by simpa using hm) hnp
  · rw [loop_tick_other s1 timeout hst] at h
    dsimp only at h
    simp only [Option.some.injEq, Prod.mk.injEq] at h
    obtain ⟨hr, -, ht⟩ := h
    subst hr; subst ht
    constructor
    · intro hcon; cases hcon
    · intro hm
      exact absurd (by simpa using hm) hnp

theorem c4_witness :
    Event.stateChange ImprovState.provisioning ImprovState.provisioned ∈ apLoopTrace :=
  (c4_loop_true_iff_provisioned_transition apCore true [] 0 true apLoopPost apLoopTrace
    rfl).mp rfl
/-! ### C5 — every emitted frame is checksummed and newline-terminated -/

/-- C5: every frame the core writes to the serial port during any
service-loop invocation — `current_state`, `error_state` and `rpc_response`
frames alike — ends with a checksum byte equal to the modular-256 sum of
all preceding bytes of the frame, followed by exactly one trailing 0x0A. -/
theorem c5_emitted_frames_wellformed (s : Core) (timeout : Bool)
    (input : List Nat) (now : Nat) (r : Bool) (s' : Core) (tr : List Event)
    (h : loop s timeout input now = some (r, s', tr)) :
    ∀ f, Event.frameOut f ∈ tr → wellFormedFrame f := by
  unfold loop at h
  dsimp only at h
  rcases hd : drain (if 50 < sub32 now s.last_read_byte_ then
      { s with rx_buffer_ := [], last_read_byte_ := now } else s) now input
      with - | ⟨s1, tr1⟩ <;> rw [hd] at h
  · cases h
  dsimp only at h
  obtain ⟨-, -, -, dwf⟩ := drain_props input _ now s1 tr1 hd
  intro f hm
  by_cases hst : s1.state_ = .provisioning
  · by_cases hw : wifi_active s1.wifi = true
    · rw [loop_tick_prov s1 timeout hst hw] at h
      dsimp only at h
      simp only [Option.some.injEq, Prod.mk.injEq] at h
      obtain ⟨-, -, ht⟩ := h
      subst ht
      rcases List.mem_append.mp hm with hm | hm
      · exact dwf f hm
      · simp at hm
        rcases hm with rfl | rfl
        · exact wf_state_frame _
        · exact wf_response_frame _
    · rw [Bool.not_eq_true] at hw
      cases timeout with
      | true =>
        rw [loop_tick_timeout s1 hst hw] at h
        dsimp only at h
        simp only [Option.some.injEq, Prod.mk.injEq] at h
        obtain ⟨-, -, ht⟩ := h
        subst ht
        rcases List.mem_append.mp hm with hm | hm
        · exact dwf f hm
        · simp [set_error_] at hm
          rcases hm with rfl | rfl
          · exact wf_error_frame _
          · exact wf_state_frame _
      | false =>
        rw [loop_tick_idle s1 hst hw] at h
        dsimp only at h
        simp only [Option.some.injEq, Prod.mk.injEq] at h
        obtain ⟨-, -, ht⟩ := h
        subst ht
        exact dwf f (by simpa using hm)
  · rw [loop_tick_other s1 timeout hst] at h
    dsimp only at h
    simp only [Option.some.injEq, Prod.mk.injEq] at h
    obtain ⟨-, -, ht⟩ := h
    subst ht
    exact dwf f (by simpa using hm)

theorem c5_witness :
    wellFormedFrame (write_data_ (set_error_data 3)) :=
  c5_emitted_frames_wellformed provCore true [] 0 false
    (match loop provCore true [] 0 with | some o => o.2.1 | none => provCore)
    (match loop provCore true [] 0 with | some o => o.2.2 | none => [])
    rfl (write_data_ (set_error_data 3)) (by decide)
lemma parse_false_after_frame (s : Core) (b : Nat)
    (hge : 10 + s.rx_buffer_.getD 8 0 ≤ s.rx_buffer_.length) :
    parse_improv_serial_byte_ s b =
      some (false, { s with rx_buffer_ := s.rx_buffer_ ++ [b % 256] }, []) := by
  have hdl : (s.rx_buffer_ ++ [b % 256]).getD 8 0 = s.rx_buffer_.getD 8 0 :=
    List.getD_append _ _ _ _ (by omega)
  have n0 : ¬s.rx_buffer_.length = 0 := by omega
  have n1 : ¬s.rx_buffer_.length = 1 := by omega
  have n2 : ¬s.rx_buffer_.length = 2 := by omega
  have n3 : ¬s.rx_buffer_.length = 3 := by omega
  have n4 : ¬s.rx_buffer_.length = 4 := by omega
  have n5 : ¬s.rx_buffer_.length = 5 := by omega
  have n6 : ¬s.rx_buffer_.length = 6 := by omega
  have n7 : ¬s.rx_buffer_.length = 7 := by omega
  have n8 : ¬s.rx_buffer_.length = 8 := by omega
  have n9 : ¬s.rx_buffer_.length < 8 + s.rx_buffer_.getD 8 0 := by omega
  have n10 : ¬s.rx_buffer_.length = 8 + s.rx_buffer_.getD 8 0 := by omega
  have n11 : ¬s.rx_buffer_.length = 8 + s.rx_buffer_.getD 8 0 + 1 := by omega
  unfold parse_improv_serial_byte_
  dsimp only
  rw [if_neg n0, if_neg n1, if_neg n2, if_neg n3, if_neg n4, if_neg n5, if_neg n6,
    if_neg n7, if_neg n8, hdl, if_neg n9, if_neg n10, if_neg n11]

lemma drain_buffer_inv (input : List Nat) : ∀ (s : Core) (now : Nat) (s' : Core)
    (tr : List Event),
    drain s now input = some (s', tr) →
    (∀ x ∈ s.rx_buffer_, x < 256) → s.rx_buffer_.length ≤ 264 →
    (∀ x ∈ s'.rx_buffer_, x < 256) ∧ s'.rx_buffer_.length ≤ 264 := by
  induction input with
  | nil =>
    intro s now s' tr h hbyte hlen
    simp only [drain, Option.some.injEq, Prod.mk.injEq] at h
    obtain ⟨h1, -⟩ := h
    subst h1
    exact ⟨hbyte, hlen⟩
  | cons b rest ih =>
    intro s now s' tr h hbyte hlen
    rw [drain] at h
    have hpush : ∀ x ∈ s.rx_buffer_ ++ [b % 256], x < 256 := by
      intro x hx
      rcases List.mem_append.mp hx with hx | hx
      · exact hbyte x hx
      · simp at hx
        omega
    rcases parse_cases s b with ⟨hn, -⟩ | ⟨r0, tr0, he, -, htrue⟩ | ⟨p, he, h256⟩
    · rw [hn] at h; cases h
    · rw [he] at h
      dsimp only at h
      cases r0 with
      | false =>
        rw [if_neg Bool.false_ne_true] at h
        rcases hd : drain { { s with rx_buffer_ := s.rx_buffer_ ++ [b % 256] } with
            rx_buffer_ := [] } now rest with - | ⟨s3, tr2⟩ <;> rw [hd] at h
        · cases h
        dsimp only at h
        simp only [Option.some.injEq, Prod.mk.injEq] at h
        obtain ⟨h1, -⟩ := h
        subst h1
        exact ih _ now s3 tr2 hd (by simp) (by simp)
      | true =>
        rw [if_pos rfl] at h
        rcases hd : drain { { s with rx_buffer_ := s.rx_buffer_ ++ [b % 256] } with
            last_read_byte_ := now } now rest with - | ⟨s3, tr2⟩ <;> rw [hd] at h
        · cases h
        dsimp only at h
        simp only [Option.some.injEq, Prod.mk.injEq] at h
        obtain ⟨h1, -⟩ := h
        subst h1
        have hdlbound : s.rx_buffer_.getD 8 0 ≤ 255 := by
          by_cases h8 : 8 < s.rx_buffer_.length
          · have hm : s.rx_buffer_.getD 8 0 ∈ s.rx_buffer_ := by
              rw [List.getD_eq_getElem?_getD, List.getElem?_eq_getElem h8]
              exact List.getElem_mem h8
            have := hbyte _ hm
            omega
          · rw [List.getD_eq_getElem?_getD, List.getElem?_eq_none (by omega)]
            simp
        have hlen1 : s.rx_buffer_.length ≤ 263 := by
          have := htrue rfl
          omega
        refine ih _ now s3 tr2 hd (by simpa using hpush) (by simp; omega)
    · rw [he] at h
      dsimp only at h
      obtain ⟨hbufeq, -, -, -⟩ :=
        handle_core_fields { s with rx_buffer_ := s.rx_buffer_ ++ [b % 256] } p
      cases hq : (handle_rpc { s with rx_buffer_ := s.rx_buffer_ ++ [b % 256] } p).1 with
      | false =>
        rw [hq] at h
        rw [if_neg Bool.false_ne_true] at h
        rcases hd : drain { (handle_rpc { s with rx_buffer_ := s.rx_buffer_ ++ [b % 256] }
            p).2.1 with rx_buffer_ := [] } now rest with - | ⟨s3, tr2⟩ <;> rw [hd] at h
        · cases h
        dsimp only at h
        simp only [Option.some.injEq, Prod.mk.injEq] at h
        obtain ⟨h1, -⟩ := h
        subst h1
        exact ih _ now s3 tr2 hd (by simp) (by simp)
      | true =>
        rw [hq] at h
        rw [if_pos rfl] at h
        rcases hd : drain { (handle_rpc { s with rx_buffer_ := s.rx_buffer_ ++ [b % 256] }
            p).2.1 with last_read_byte_ := now } now rest with - | ⟨s3, tr2⟩ <;> rw [hd] at h
        · cases h
        dsimp only at h
        simp only [Option.some.injEq, Prod.mk.injEq] at h
        obtain ⟨h1, -⟩ := h
        subst h1
        refine ih _ now s3 tr2 hd ?_ ?_
        · simpa [hbufeq] using hpush
        · simp [hbufeq]
          omega

/-- C6 (amended): fed one byte at a time through the parse/clear-on-false
discipline from an empty buffer, the receive buffer never exceeds 265 bytes:
it holds at most 264 bytes between bytes (so at most 265 transiently inside
the next parse call), and once the buffer already holds a complete frame
(length at least 10+L where L is its length byte), the very next parse call
returns false, after which the caller clears the buffer.  The parser does,
however, return true at offset 9+L for a successfully handled RPC frame, so
false comes no later than offset 10+L rather than 9+L. -/
theorem c6_buffer_bounded_by_265 (s : Core) (input : List Nat) (now : Nat) (s' : Core)
    (tr : List Event) (b : Nat)
    (hempty : s.rx_buffer_ = [])
    (h : drain s now input = some (s', tr)) :
    s'.rx_buffer_.length ≤ 264 ∧
    (s'.rx_buffer_ ++ [b % 256]).length ≤ 265 ∧
    (10 + s'.rx_buffer_.getD 8 0 ≤ s'.rx_buffer_.length →
      parse_improv_serial_byte_ s' b =
        some (false, { s' with rx_buffer_ := s'.rx_buffer_ ++ [b % 256] }, [])) := by
  obtain ⟨hb, hl⟩ := drain_buffer_inv input s now s' tr h (by simp [hempty])
    (by simp [hempty])
  refine ⟨hl, by simp; omega, fun hge => parse_false_after_frame s' b hge⟩

theorem c6_witness :
    wsDrainPost.rx_buffer_.length ≤ 264 ∧
    (wsDrainPost.rx_buffer_ ++ [0 % 256]).length ≤ 265 ∧
    (10 + wsDrainPost.rx_buffer_.getD 8 0 ≤ wsDrainPost.rx_buffer_.length →
      parse_improv_serial_byte_ wsDrainPost 0 =
        some (false, { wsDrainPost with
          rx_buffer_ := wsDrainPost.rx_buffer_ ++ [0 % 256] }, [])) :=
  c6_buffer_bounded_by_265 initCore wsFrame 0 wsDrainPost wsDrainTrace 0 rfl rfl

/-- C7 (amended): the ordering `error_state` before `current_state` before
`rpc_response` holds within the handling of each single parser byte (hence
of each single inbound frame) and within each post-drain state-machine step;
it does not hold across a whole loop invocation that handles an RPC response
and then runs the timeout transition (see the counterexample). -/
theorem c7_frames_ordered_per_step :
    (∀ (s : Core) (b : Nat) (r : Bool) (s' : Core) (tr : List Event),
        parse_improv_serial_byte_ s b = some (r, s', tr) → framesOrdered tr) ∧
    (∀ (s : Core) (timeout : Bool), framesOrdered (loop_tick s timeout).2.2) := by
  constructor
  · intro s b r s' tr h
    rcases parse_cases s b with ⟨hn, -⟩ | ⟨r0, tr0, he, htr, -⟩ | ⟨p, he, -⟩
    · rw [hn] at h; cases h
    · rw [he] at h
      simp only [Option.some.injEq, Prod.mk.injEq] at h
      obtain ⟨-, -, h3⟩ := h
      subst h3
      rcases htr with rfl | rfl <;>
        simp [framesOrdered, frameTypes, set_error_, frameType_error, frameRankOf]
    · rw [he] at h
      simp only [Option.some.injEq, Prod.mk.injEq] at h
      obtain ⟨-, -, h3⟩ := h
      subst h3
      have hord := handle_frames_ordered
        { s with rx_buffer_ := s.rx_buffer_ ++ [b % 256] } p
      rw [framesOrdered, show frameTypes (set_error_ 0 ::
        (handle_rpc { s with rx_buffer_ := s.rx_buffer_ ++ [b % 256] } p).2.2) =
        2 :: frameTypes (handle_rpc { s with
          rx_buffer_ := s.rx_buffer_ ++ [b % 256] } p).2.2 from rfl]
      refine List.pairwise_cons.mpr ⟨fun a _ => ?_, hord⟩
      show frameRankOf 2 ≤ frameRankOf a
      rw [show frameRankOf 2 = 0 from rfl]
      exact Nat.zero_le _
  · intro s timeout
    by_cases hst : s.state_ = .provisioning
    · by_cases hw : wifi_active s.wifi = true
      · rw [loop_tick_prov s timeout hst hw]
        simp [framesOrdered, frameTypes, frameType_state, frameType_response, frameRankOf]
      · rw [Bool.not_eq_true] at hw
        cases timeout with
        | true =>
          rw [loop_tick_timeout s hst hw]
          simp [framesOrdered, frameTypes, frameType_state, frameType_error, set_error_,
            frameRankOf]
        | false =>
          rw [loop_tick_idle s hst hw]
          simp [framesOrdered, frameTypes]
    · rw [loop_tick_other s timeout hst]
      simp [framesOrdered, frameTypes]

theorem c7_witness :
    framesOrdered (match parse_improv_serial_byte_ rpcInfoPre 229 with
      | some o => o.2.2
      | none => []) :=
  c7_frames_ordered_per_step.1 rpcInfoPre 229 true
    (match parse_improv_serial_byte_ rpcInfoPre 229 with
      | some o => o.2.1
      | none => rpcInfoPre)
    (match parse_improv_serial_byte_ rpcInfoPre 229 with
      | some o => o.2.2
      | none => []) rfl
